import Mathlib

/-!
Verification of the step-flow lead-capture pages.

The repository contains two near-identical client pages ("src/app/page.tsx",
called variant 1 below, and the unnamed second page, called variant 2).
Each page exposes a handful of pure helpers — the click-source attribution
formatter, the phone-contact formatter and validator, the submittability
predicate, the submission-payload assembly — plus a linear step state
machine.  Those helpers are embedded below as executable Lean functions,
translated line by line from the TypeScript source; JavaScript-specific
behaviour (truthiness of strings, `String.replace` with a string pattern
replacing only the first occurrence, `||` defaulting) is made explicit in
small helper functions.
-/

/-- Truthiness of a nullable string in JavaScript: `null` and the empty
string are falsy, every other string is truthy.  Used to model the
`if (blogId) ...` tests of the source, where the identifiers are
`string | null`. -/
def jsTruthy (v : Option String) : Bool :=
  match v with
  | none => false
  | some s => s != ""

/-- The `x || d` defaulting idiom applied to a nullable string: yields `d`
when `x` is `null` or empty, otherwise the string itself. -/
def jsOrElse (v : Option String) (d : String) : String :=
  match v with
  | none => d
  | some s => if s == "" then d else s

/-- The fixed lookup table of the attribution formatter
(`sourceMap` in both pages), mapping traffic-source codes to display names. -/
def sourceMap : List (String × String) :=
  [("daangn", "당근"),
   ("insta", "인스타"),
   ("facebook", "페이스북"),
   ("google", "구글"),
   ("youtube", "유튜브"),
   ("kakao", "카카오"),
   ("naver", "네이버"),
   ("naverblog", "네이버블로그"),
   ("toss", "토스"),
   ("mamcafe", "맘카페")]

/-- `formatClickSource` of variant 1 (campaign constant `"바로폼"`).
The display name falls back to the raw code for unknown codes
(`sourceMap[utmSource] || utmSource`; every table value is non-empty, so
`Option.getD` models the `||`).  The first truthy identifier among
blog, cafe, material wins, exactly as the source's `if` chain. -/
def formatClickSource (utmSource : String) (materialId : Option String)
    (blogId : Option String) (cafeId : Option String) : String :=
  let shortSource := (sourceMap.lookup utmSource).getD utmSource
  let homepageName := "바로폼"
  if jsTruthy blogId then homepageName ++ "_" ++ shortSource ++ "_" ++ blogId.getD ("")
  else if jsTruthy cafeId then homepageName ++ "_" ++ shortSource ++ "_" ++ cafeId.getD ("")
  else if jsTruthy materialId then
    homepageName ++ "_" ++ shortSource ++ "_소재_" ++ materialId.getD ("")
  else homepageName ++ "_" ++ shortSource

/-- `formatClickSource` of variant 2: identical to variant 1 except for the
campaign constant `"취업상담신청"`. -/
def formatClickSource2 (utmSource : String) (materialId : Option String)
    (blogId : Option String) (cafeId : Option String) : String :=
  let shortSource := (sourceMap.lookup utmSource).getD utmSource
  let homepageName := "취업상담신청"
  if jsTruthy blogId then homepageName ++ "_" ++ shortSource ++ "_" ++ blogId.getD ("")
  else if jsTruthy cafeId then homepageName ++ "_" ++ shortSource ++ "_" ++ cafeId.getD ("")
  else if jsTruthy materialId then
    homepageName ++ "_" ++ shortSource ++ "_소재_" ++ materialId.getD ("")
  else homepageName ++ "_" ++ shortSource

/-- `value.replace(/[^0-9]/g, "")`: keep only the decimal digits. -/
def cleanDigits (l : List Char) : List Char :=
  l.filter Char.isDigit

/-- The branch structure of `formatContact`, acting on the already-cleaned
digit list `c`.  JavaScript `slice(a, b)` on strings is `(drop a).take (b - a)`
on the character list. -/
def formatContactL (c : List Char) : List Char :=
  if c.length ≤ 3 then c
  else if c.length ≤ 7 then c.take 3 ++ '-' :: c.drop 3
  else c.take 3 ++ '-' :: ((c.drop 3).take 4 ++ '-' :: (c.drop 7).take 4)

/-- `formatContact` (identical in both pages): strip non-digits, then insert
dashes as `XXX`, `XXX-XXXX`, or `XXX-XXXX-XXXX`, the last branch keeping
`slice(7, 11)`, i.e. at most 11 digits in total. -/
def formatContact (value : String) : String :=
  (formatContactL (cleanDigits value.toList)).asString

/-- The contact formatter as the spec describes it, for comparison with the
source-derived `formatContact`: strip all non-digit characters, keep at most
11 significant digits (digits beyond the 11th are dropped), then re-insert a
separator after digit 3 and after digit 7 when enough digits follow. -/
def formatContactSpec (value : String) : String :=
  let d := (value.toList.filter Char.isDigit).take 11
  if d.length ≤ 3 then d.asString
  else if d.length ≤ 7 then (d.take 3 ++ '-' :: d.drop 3).asString
  else (d.take 3 ++ '-' :: ((d.drop 3).take 4 ++ '-' :: d.drop 7)).asString

/-- The character class `[-\s]` of `contact.replace(/[-\s]/g, "")`:
a dash or whitespace.  (`Char.isWhitespace` covers the ASCII whitespace
characters that can occur in a phone-number field.) -/
def isContactSep (c : Char) : Bool :=
  c == '-' || c.isWhitespace

/-- `contact.replace(/[-\s]/g, "")`: drop every dash and whitespace
character. -/
def stripContactSep (s : String) : String :=
  (s.toList.filter (fun c => !(isContactSep c))).asString

/-- `s.startsWith(pre)` of JavaScript: `pre` is a prefix of the character
sequence of `s`. -/
def jsStartsWith (s pre : String) : Bool :=
  pre.toList.isPrefixOf s.toList

/-- The fixed error message set by `validateContact` on a bad number. -/
def contactErrorMsg : String := "010 또는 011로 시작하는 번호를 입력해주세요"

/-- `validateContact` (identical in both pages), returned as the pair
(result, contactError-state written by the call): empty stripped input is
valid with the error cleared; a stripped input starting with neither
`"010"` nor `"011"` is invalid with the fixed message; otherwise valid with
the error cleared. -/
def validateContact (contact : String) : Bool × String :=
  let cleaned := stripContactSep contact
  if cleaned.length = 0 then (true, "")
  else if !(jsStartsWith cleaned ("010")) && !(jsStartsWith cleaned ("011")) then
    (false, contactErrorMsg)
  else (true, "")

/-- `isFormValid` of variant 1: name present, stripped contact at least 10
characters, no contact error (`!contactError` is true exactly on the empty
string), privacy consent checked. -/
def isFormValid (name contact contactError : String) (privacyAgreed : Bool) : Bool :=
  decide (0 < name.length) &&
  decide (10 ≤ (stripContactSep contact).length) &&
  (contactError == "") &&
  privacyAgreed

/-- The form record of variant 2 (`formData` of the unnamed page).
`employment_support_fund` ranges over `""`, `"희망함"`, `"희망하지 않음"`. -/
structure FormData2 where
  name : String
  contact : String
  service_practice : Bool
  service_employment : Bool
  practice_planned_date : String
  employment_hope_time : String
  employment_support_fund : String

/-- `isFormValid` of variant 2: additionally at least one service selected,
a 7-character practice date whenever the practice service is selected, an
employment-hope time chosen, and the support-fund choice made. -/
def isFormValid2 (fd : FormData2) (contactError : String) (privacyAgreed : Bool) : Bool :=
  decide (0 < fd.name.length) &&
  decide (10 ≤ (stripContactSep fd.contact).length) &&
  (contactError == "") &&
  (fd.service_practice || fd.service_employment) &&
  (!fd.service_practice || fd.practice_planned_date.length == 7) &&
  decide (0 < fd.employment_hope_time.length) &&
  !(fd.employment_support_fund == "") &&
  privacyAgreed

/-- `formatPracticeDate` of variant 2: keep at most 6 digits and insert a
dash after the fourth (`20XX-MM`). -/
def formatPracticeDate (value : String) : String :=
  let digits := (value.toList.filter Char.isDigit).take 6
  if digits.length ≤ 4 then digits.asString
  else (digits.take 4 ++ '-' :: digits.drop 4).asString

/-- JavaScript `s.replace("-", "")` with a string pattern: removes only the
first occurrence of the dash. -/
def removeFirstDash : List Char → List Char
  | [] => []
  | c :: rest => if c = '-' then rest else c :: removeFirstDash rest

/-- String form of `s.replace("-", "")`. -/
def jsReplaceDash (s : String) : String :=
  (removeFirstDash s.toList).asString

/-- The submission payload of variant 2 (`submitData` in `handleSubmit`):
`practice_planned_date` is nullable (`null` when the practice service is
not selected), `employment_support_fund` is the boolean
`formData.employment_support_fund === "희망함"`. -/
structure SubmitData2 where
  name : String
  contact : String
  service_practice : Bool
  service_employment : Bool
  practice_planned_date : Option String
  employment_hope_time : String
  employment_support_fund : Bool
  privacy_agreed : Bool
  click_source : String
  type : String

/-- Assembly of the variant-2 payload, field for field from the source. -/
def submitData (fd : FormData2) (privacyAgreed : Bool) (clickSource : String) : SubmitData2 :=
  { name := fd.name
    contact := fd.contact
    service_practice := fd.service_practice
    service_employment := fd.service_employment
    practice_planned_date :=
      if fd.service_practice then some (jsReplaceDash fd.practice_planned_date) else none
    employment_hope_time := fd.employment_hope_time
    employment_support_fund := fd.employment_support_fund == "희망함"
    privacy_agreed := privacyAgreed
    click_source := clickSource
    type :=
      if fd.service_practice && fd.service_employment then "실습+취업"
      else if fd.service_practice then "실습"
      else "취업" }

/-- The `onChange` handler of the `"취업"` (employment-only) checkbox of
variant 2: clears the practice flag, sets the employment flag, and resets
the stored practice date to the empty string. -/
def selectEmploymentOnly (fd : FormData2) : FormData2 :=
  { fd with
    service_practice := false
    service_employment := true
    practice_planned_date := "" }

/-- The generic message of the error thrown on a non-ok response when the
response body carries no usable `error` field. -/
def genericSaveFail : String := "저장에 실패했습니다."

/-- The alert fallback of the `catch` block for a thrown value that is not
an `Error`. -/
def genericRetryMsg : String := "저장에 실패했습니다. 다시 시도해주세요."

/-- The possible outcomes of the `fetch` call inside `handleSubmit`:
an ok response, a non-ok response whose JSON body has a nullable `error`
field, a rejected promise carrying an `Error` with a message (e.g. a network
failure), or a thrown value that is not an `Error`. -/
inductive FetchResult where
  | success : FetchResult
  | httpError : Option String → FetchResult
  | thrownError : String → FetchResult
  | thrownNonError : FetchResult

/-- The component state written by one run of `handleSubmit`:
the step after the run, the loading flag (always reset in `finally`),
and the alert shown to the user, if any. -/
structure SubmitState where
  step : Nat
  loading : Bool
  alertMsg : Option String

/-- One run of `handleSubmit` (both variants share this control flow),
starting from step `step`: an ok response sets the step to 3; a non-ok
response throws `Error(errorData.error || "저장에 실패했습니다.")`, which the
`catch` alerts; a rejected `fetch` alerts the error's own message; a
non-`Error` throw alerts the generic retry message.  The `finally` clause
resets `loading` on every path, and no failing path changes the step. -/
def handleSubmitRun (step : Nat) (r : FetchResult) : SubmitState :=
  match r with
  | .success => { step := 3, loading := false, alertMsg := none }
  | .httpError e => { step := step, loading := false, alertMsg := some (jsOrElse e genericSaveFail) }
  | .thrownError m => { step := step, loading := false, alertMsg := some m }
  | .thrownNonError => { step := step, loading := false, alertMsg := some genericRetryMsg }

/-- Events that can change the step marker: the next button of the step-1
screen, and the two outcomes of a submission from the step-2 screen. -/
inductive Event where
  | pressNext : Event
  | submitSuccess : Event
  | submitFailure : Event

/-- The step transition function of the pages: the next button exists only
on the step-1 screen (variant 1) and sets the step to 2; `setStep 3` runs
only on a successful submission, reachable only from the step-2 screen;
a failed submission leaves the step unchanged.  No other `setStep` call
exists in either page. -/
def stepTransition (step : Nat) (e : Event) : Nat :=
  match e with
  | .pressNext => if step = 1 then 2 else step
  | .submitSuccess => if step = 2 then 3 else step
  | .submitFailure => step

/-- Initial step of variant 1 (`useState(1)`). -/
def initialStep1 : Nat := 1

/-- Initial step of variant 2 (`useState(2)`, step 1 hidden). -/
def initialStep2 : Nat := 2

example : formatClickSource ("kakao") (some ("42")) none none = "바로폼_카카오_소재_42" := by decide
example : formatContact ("01012345678") = "010-1234-5678" := by decide
example : validateContact ("02112345678") = (false, contactErrorMsg) := by decide
example : jsReplaceDash ("2025-03") = "202503" := by decide

/-! ### Helper lemmas -/

lemma cleanDigits_all_digits (l : List Char) :
    ∀ a ∈ cleanDigits l, a.isDigit = true :=
  fun _ ha => List.of_mem_filter ha

lemma cleanDigits_of_digits {c : List Char} (h : ∀ a ∈ c, a.isDigit = true) :
    cleanDigits c = c :=
  List.filter_eq_self.mpr h

lemma cleanDigits_formatContactL {c : List Char} (h : ∀ a ∈ c, a.isDigit = true) :
    cleanDigits (formatContactL c) = c.take 11 := by
  have hdash : ('-' : Char).isDigit = false := by decide
  have htake : ∀ n : Nat, cleanDigits (c.take n) = c.take n :=
    fun n => cleanDigits_of_digits (fun a ha => h a (List.take_subset n c ha))
  have hdroptake : ∀ m n : Nat, cleanDigits ((c.drop m).take n) = (c.drop m).take n :=
    fun m n => cleanDigits_of_digits
      (fun a ha => h a (List.drop_subset m c (List.take_subset n _ ha)))
  unfold formatContactL
  by_cases h3 : c.length ≤ 3
  · simp only [h3, if_true]
    rw [cleanDigits_of_digits h, List.take_of_length_le (by omega)]
  · by_cases h7 : c.length ≤ 7
    · simp only [h3, h7, if_true, if_false]
      unfold cleanDigits
      rw [List.filter_append, List.filter_cons]
      simp only [hdash, Bool.false_eq_true, if_false]
      rw [show ∀ x, List.filter Char.isDigit x = cleanDigits x from fun _ => rfl]
      rw [show ∀ x, List.filter Char.isDigit x = cleanDigits x from fun _ => rfl]
      rw [htake]
      rw [cleanDigits_of_digits (fun a ha => h a (List.drop_subset 3 c ha))]
      rw [List.take_append_drop]
      rw [List.take_of_length_le (by omega)]
    · simp only [h3, h7, if_false]
      unfold cleanDigits
      rw [List.filter_append, List.filter_cons]
      simp only [hdash, Bool.false_eq_true, if_false]
      rw [List.filter_append, List.filter_cons]
      simp only [hdash, Bool.false_eq_true, if_false]
      rw [show ∀ x, List.filter Char.isDigit x = cleanDigits x from fun _ => rfl]
      rw [show ∀ x, List.filter Char.isDigit x = cleanDigits x from fun _ => rfl]
      rw [show ∀ x, List.filter Char.isDigit x = cleanDigits x from fun _ => rfl]
      rw [htake, hdroptake, hdroptake]
      rw [show (11 : Nat) = 7 + 4 from rfl, List.take_add]
      rw [show (7 : Nat) = 3 + 4 from rfl, List.take_add]
      rw [List.append_assoc]

lemma formatContactL_take11 (c : List Char) :
    formatContactL (c.take 11) = formatContactL c := by
  by_cases h7 : c.length ≤ 7
  · rw [List.take_of_length_le (by omega)]
  · have hlen : (c.take 11).length = min 11 c.length := by
      simp [List.length_take]
    unfold formatContactL
    have h3' : ¬ (c.take 11).length ≤ 3 := by omega
    have h7' : ¬ (c.take 11).length ≤ 7 := by omega
    have h3 : ¬ c.length ≤ 3 := by omega
    simp only [h3, h3', h7, h7', if_false]
    rw [List.take_take, List.drop_take, List.take_take, List.drop_take, List.take_take]
    norm_num

lemma not_dash_of_digit {a : Char} (h : a.isDigit = true) : a ≠ '-' := by
  intro e
  subst e
  exact absurd h (by decide)

lemma removeFirstDash_dashfree {l : List Char} (h : ∀ a ∈ l, a ≠ '-') :
    removeFirstDash l = l := by
  induction l with
  | nil => rfl
  | cons c rest ih =>
      unfold removeFirstDash
      rw [if_neg (h c (by simp))]
      rw [ih (fun a ha => h a (by simp [ha]))]

lemma removeFirstDash_append {x : List Char} (y : List Char) (h : ∀ a ∈ x, a ≠ '-') :
    removeFirstDash (x ++ '-' :: y) = x ++ y := by
  induction x with
  | nil => simp [removeFirstDash]
  | cons c rest ih =>
      simp only [List.cons_append]
      unfold removeFirstDash
      rw [if_neg (h c (by simp))]
      rw [ih (fun a ha => h a (by simp [ha]))]

lemma stepTransition_le (s : Nat) (e : Event) : s ≤ stepTransition s e := by
  cases e <;> simp only [stepTransition] <;> (try split) <;> omega

/-! ### Claim theorems -/

/-- Claim C1: for every supported source code, `formatClickSource` (both
variants) returns the campaign constant, an underscore, and the display
name from the lookup table when all three identifiers are absent; and when
several identifiers are present simultaneously it appends the suffix for
exactly one of them, with precedence blog over cafe over material. -/
theorem formatClickSource_supported_and_precedence :
    (sourceMap.all (fun p =>
        formatClickSource p.1 none none none == "바로폼_" ++ p.2 &&
        formatClickSource2 p.1 none none none == "취업상담신청_" ++ p.2) = true) ∧
    (∀ src m b c : String, b ≠ "" → c ≠ "" → m ≠ "" →
      (formatClickSource src (some m) (some b) (some c) =
        "바로폼_" ++ (sourceMap.lookup src).getD src ++ "_" ++ b) ∧
      (formatClickSource src (some m) none (some c) =
        "바로폼_" ++ (sourceMap.lookup src).getD src ++ "_" ++ c) ∧
      (formatClickSource src (some m) none none =
        "바로폼_" ++ (sourceMap.lookup src).getD src ++ "_소재_" ++ m) ∧
      (formatClickSource2 src (some m) (some b) (some c) =
        "취업상담신청_" ++ (sourceMap.lookup src).getD src ++ "_" ++ b) ∧
      (formatClickSource2 src (some m) none (some c) =
        "취업상담신청_" ++ (sourceMap.lookup src).getD src ++ "_" ++ c) ∧
      (formatClickSource2 src (some m) none none =
        "취업상담신청_" ++ (sourceMap.lookup src).getD src ++ "_소재_" ++ m)) := by
  constructor
  · decide
  · intro src m b c hb hc hm
    have hb' : (b != "") = true := by simpa [bne_iff_ne] using hb
    have hc' : (c != "") = true := by simpa [bne_iff_ne] using hc
    have hm' : (m != "") = true := by simpa [bne_iff_ne] using hm
    refine ⟨?_, ?_, ?_, ?_, ?_, ?_⟩ <;>
      simp [formatClickSource, formatClickSource2, jsTruthy, hb', hc', hm']

/-- Witness for C1 at a concrete supported source with all identifiers
present. -/
theorem formatClickSource_supported_and_precedence_witness :
    (formatClickSource ("kakao") (some ("1")) (some ("B")) (some ("C")) =
      "바로폼_" ++ (sourceMap.lookup ("kakao")).getD ("kakao") ++ "_" ++ "B") ∧
    (formatClickSource ("kakao") (some ("1")) none (some ("C")) =
      "바로폼_" ++ (sourceMap.lookup ("kakao")).getD ("kakao") ++ "_" ++ "C") ∧
    (formatClickSource ("kakao") (some ("1")) none none =
      "바로폼_" ++ (sourceMap.lookup ("kakao")).getD ("kakao") ++ "_소재_" ++ "1") ∧
    (formatClickSource2 ("kakao") (some ("1")) (some ("B")) (some ("C")) =
      "취업상담신청_" ++ (sourceMap.lookup ("kakao")).getD ("kakao") ++ "_" ++ "B") ∧
    (formatClickSource2 ("kakao") (some ("1")) none (some ("C")) =
      "취업상담신청_" ++ (sourceMap.lookup ("kakao")).getD ("kakao") ++ "_" ++ "C") ∧
    (formatClickSource2 ("kakao") (some ("1")) none none =
      "취업상담신청_" ++ (sourceMap.lookup ("kakao")).getD ("kakao") ++ "_소재_" ++ "1") :=
  formatClickSource_supported_and_precedence.2 ("kakao") ("1") ("B") ("C")
    (by decide) (by decide) (by decide)

/-- Claim C2 fails on the code: a blog identifier and a cafe identifier of
the same string yield the same label, because the source appends both with
the same separator `"_"`; only the material identifier carries the distinct
`"_소재_"` token.  Concretely, blog id `"X"` and cafe id `"X"` collide. -/
theorem blog_cafe_label_collision :
    formatClickSource ("kakao") none (some ("X")) none =
      formatClickSource ("kakao") none none (some ("X")) ∧
    formatClickSource ("kakao") none (some ("X")) none = "바로폼_카카오_X" := by
  constructor <;> decide

/-- Claim C2 (amended): `formatClickSource` appends the first present
identifier among blog, cafe, material in that priority order; the material
identifier is appended with its own distinct separator token (so a material
label differs from a blog or cafe label of the same string), but blog and
cafe share the separator, so their labels of the same string coincide. -/
theorem formatClickSource_separator_tokens :
    ∀ src x : String, x ≠ "" →
      (formatClickSource src none (some x) none =
        formatClickSource src none none (some x)) ∧
      (formatClickSource src (some x) none none ≠
        formatClickSource src none (some x) none) ∧
      (formatClickSource src (some x) none none ≠
        formatClickSource src none none (some x)) ∧
      (formatClickSource src (some x) (some x) (some x) =
        formatClickSource src none (some x) none) ∧
      (formatClickSource src (some x) none (some x) =
        formatClickSource src none none (some x)) ∧
      (formatClickSource2 src none (some x) none =
        formatClickSource2 src none none (some x)) ∧
      (formatClickSource2 src (some x) none none ≠
        formatClickSource2 src none (some x) none) := by
  intro src x hx
  have hx' : (x != "") = true := by simpa [bne_iff_ne] using hx
  have hlen1 : ("_소재_" : String).length = 4 := by decide
  have hlen2 : ("_" : String).length = 1 := by decide
  refine ⟨?_, ?_, ?_, ?_, ?_, ?_, ?_⟩
  · simp [formatClickSource, jsTruthy, hx']
  · simp only [formatClickSource, jsTruthy]
    simp [hx']
    intro h
    have hl := congrArg String.length h
    simp only [String.length_append, hlen1, hlen2] at hl
    omega
  · simp only [formatClickSource, jsTruthy]
    simp [hx']
    intro h
    have hl := congrArg String.length h
    simp only [String.length_append, hlen1, hlen2] at hl
    omega
  · simp [formatClickSource, jsTruthy, hx']
  · simp [formatClickSource, jsTruthy, hx']
  · simp [formatClickSource2, jsTruthy, hx']
  · simp only [formatClickSource2, jsTruthy]
    simp [hx']
    intro h
    have hl := congrArg String.length h
    simp only [String.length_append, hlen1, hlen2] at hl
    omega

/-- Witness for the amended C2 at a concrete identifier. -/
theorem formatClickSource_separator_tokens_witness :
    (formatClickSource ("kakao") none (some ("X")) none =
      formatClickSource ("kakao") none none (some ("X"))) ∧
    (formatClickSource ("kakao") (some ("X")) none none ≠
      formatClickSource ("kakao") none (some ("X")) none) ∧
    (formatClickSource ("kakao") (some ("X")) none none ≠
      formatClickSource ("kakao") none none (some ("X"))) ∧
    (formatClickSource ("kakao") (some ("X")) (some ("X")) (some ("X")) =
      formatClickSource ("kakao") none (some ("X")) none) ∧
    (formatClickSource ("kakao") (some ("X")) none (some ("X")) =
      formatClickSource ("kakao") none none (some ("X"))) ∧
    (formatClickSource2 ("kakao") none (some ("X")) none =
      formatClickSource2 ("kakao") none none (some ("X"))) ∧
    (formatClickSource2 ("kakao") (some ("X")) none none ≠
      formatClickSource2 ("kakao") none (some ("X")) none) :=
  formatClickSource_separator_tokens ("kakao") ("X") (by decide)

/-- Claim C3: the submittability predicate of each page variant is true
exactly when every required field is simultaneously valid, and hence false
whenever any single required condition fails while the others hold. -/
theorem isFormValid_iff_all_required :
    (∀ name contact contactError pa,
      isFormValid name contact contactError pa = true ↔
        (0 < name.length ∧ 10 ≤ (stripContactSep contact).length ∧
         contactError = "" ∧ pa = true)) ∧
    (∀ fd contactError pa,
      isFormValid2 fd contactError pa = true ↔
        (0 < fd.name.length ∧ 10 ≤ (stripContactSep fd.contact).length ∧
         contactError = "" ∧
         (fd.service_practice = true ∨ fd.service_employment = true) ∧
         (fd.service_practice = false ∨ fd.practice_planned_date.length = 7) ∧
         0 < fd.employment_hope_time.length ∧
         fd.employment_support_fund ≠ "" ∧ pa = true)) := by
  constructor
  · intro name contact contactError pa
    simp [isFormValid, and_assoc]
  · intro fd contactError pa
    simp [isFormValid2, and_assoc]

/-- Claim C4: the contact formatter is idempotent. -/
theorem formatContact_idempotent (value : String) :
    formatContact (formatContact value) = formatContact value := by
  unfold formatContact
  rw [show (((formatContactL (cleanDigits value.toList)).asString).toList) =
        formatContactL (cleanDigits value.toList) from rfl]
  congr 1
  rw [cleanDigits_formatContactL (cleanDigits_all_digits value.toList)]
  exact formatContactL_take11 _

/-- Claim C5: `formatContact` strips all non-digit characters, keeps at most
11 significant digits, and re-inserts separators after digit 3 and after
digit 7; in particular `"01012345678"` formats to `"010-1234-5678"`. -/
theorem formatContact_spec_correct :
    (∀ value : String, formatContact value = formatContactSpec value) ∧
    formatContact ("01012345678") = "010-1234-5678" := by
  constructor
  · intro value
    unfold formatContact formatContactSpec
    rw [show value.toList.filter Char.isDigit = cleanDigits value.toList from rfl]
    set c := cleanDigits value.toList with hc
    by_cases h7 : c.length ≤ 7
    · rw [List.take_of_length_le (by omega)]
      unfold formatContactL
      by_cases h3 : c.length ≤ 3
      · simp only [h3, if_true]
      · simp only [h3, h7, if_true, if_false]
    · have hlen : (c.take 11).length = min 11 c.length := by
        simp [List.length_take]
      have h3' : ¬ (c.take 11).length ≤ 3 := by omega
      have h7' : ¬ (c.take 11).length ≤ 7 := by omega
      have h3 : ¬ c.length ≤ 3 := by omega
      unfold formatContactL
      simp only [h3, h3', h7, h7', if_false]
      rw [List.take_take, List.drop_take, List.take_take, List.drop_take]
      norm_num
  · decide

/-- Claim C6: `validateContact` returns true with the error cleared exactly
when the separator-stripped contact is empty or begins with `"010"` or
`"011"`, and otherwise returns false with the fixed error message; in
particular `"02112345678"` is rejected with that message. -/
theorem validateContact_prefix_rule :
    (∀ s : String, validateContact s =
      if ((stripContactSep s).length = 0 ∨
          jsStartsWith (stripContactSep s) ("010") = true ∨
          jsStartsWith (stripContactSep s) ("011") = true)
      then (true, "") else (false, contactErrorMsg)) ∧
    validateContact ("02112345678") = (false, contactErrorMsg) := by
  constructor
  · intro s
    unfold validateContact
    by_cases h0 : (stripContactSep s).length = 0
    · simp [h0]
    · by_cases h1 : jsStartsWith (stripContactSep s) ("010") = true
      · simp [h0, h1]
      · by_cases h2 : jsStartsWith (stripContactSep s) ("011") = true
        · simp [h0, h1, h2]
        · simp [h0, h1, h2]
  · decide

/-- Claim C7: a run of `handleSubmit` from step 2 sets the step to 3 on a
successful response; on a non-ok response it keeps step 2, alerts the
server-provided error message when present (non-empty) and the generic
fallback otherwise, and resets the busy flag; a rejected request likewise
keeps step 2, alerts, and resets the busy flag. -/
theorem handleSubmit_step_and_alert :
    (handleSubmitRun 2 .success =
      { step := 3, loading := false, alertMsg := none }) ∧
    (∀ msg : String, msg ≠ "" →
      handleSubmitRun 2 (.httpError (some msg)) =
        { step := 2, loading := false, alertMsg := some msg }) ∧
    (handleSubmitRun 2 (.httpError none) =
      { step := 2, loading := false, alertMsg := some genericSaveFail }) ∧
    (handleSubmitRun 2 (.httpError (some "")) =
      { step := 2, loading := false, alertMsg := some genericSaveFail }) ∧
    (∀ m : String, handleSubmitRun 2 (.thrownError m) =
      { step := 2, loading := false, alertMsg := some m }) ∧
    (handleSubmitRun 2 .thrownNonError =
      { step := 2, loading := false, alertMsg := some genericRetryMsg }) := by
  refine ⟨rfl, ?_, rfl, rfl, fun _ => rfl, rfl⟩
  intro msg hmsg
  have hmsg' : (msg == "") = false := by simpa [beq_iff_eq] using hmsg
  simp [handleSubmitRun, jsOrElse, hmsg']

/-- Witness for C7 at a concrete server-provided message. -/
theorem handleSubmit_step_and_alert_witness :
    handleSubmitRun 2 (.httpError (some ("중복된 신청입니다"))) =
      { step := 2, loading := false, alertMsg := some ("중복된 신청입니다") } :=
  handleSubmit_step_and_alert.2.1 ("중복된 신청입니다") (by decide)

/-- Claim C8: the step marker starts at 1 (variant 1) or 2 (variant 2) and
never decreases over any event sequence; the only strict transitions are
1 to 2 via the next button and 2 to 3 via a successful submission, and
step 3 is terminal. -/
theorem step_marker_forward_only :
    initialStep1 = 1 ∧ initialStep2 = 2 ∧
    (∀ s e, s ≤ stepTransition s e) ∧
    (∀ e, stepTransition 3 e = 3) ∧
    (∀ s e, stepTransition s e = s ∨
      (s = 1 ∧ e = Event.pressNext ∧ stepTransition s e = 2) ∨
      (s = 2 ∧ e = Event.submitSuccess ∧ stepTransition s e = 3)) ∧
    (∀ (es : List Event) (s : Nat), s ≤ es.foldl stepTransition s) := by
  refine ⟨rfl, rfl, stepTransition_le, ?_, ?_, ?_⟩
  · intro e
    cases e <;> simp [stepTransition]
  · intro s e
    cases e
    · by_cases h : s = 1
      · subst h; right; left; simp [stepTransition]
      · left; simp [stepTransition, h]
    · by_cases h : s = 2
      · subst h; right; right; simp [stepTransition]
      · left; simp [stepTransition, h]
    · left; rfl
  · intro es
    induction es with
    | nil => intro s; exact le_refl s
    | cons e rest ih =>
        intro s
        exact le_trans (stepTransition_le s e) (ih (stepTransition s e))

/-- Claim C9: the variant-2 payload derives its composite `type` label by
the three-way rule (both services, practice only, otherwise employment),
transmits the practice date stripped of its separator character (and only
when the practice service is selected), and converts the support-fund
choice to a boolean that is true exactly for the `"희망함"` value; any date
stored by `formatPracticeDate` is dash-free after stripping. -/
theorem submitData_business_rules :
    (∀ fd pa cs,
      ((submitData fd pa cs).type =
        if fd.service_practice && fd.service_employment then ("실습+취업")
        else if fd.service_practice then ("실습") else ("취업")) ∧
      ((submitData fd pa cs).practice_planned_date =
        if fd.service_practice then some (jsReplaceDash fd.practice_planned_date)
        else none) ∧
      ((submitData fd pa cs).employment_support_fund =
        (fd.employment_support_fund == "희망함"))) ∧
    (∀ v : String, '-' ∉ (jsReplaceDash (formatPracticeDate v)).toList) := by
  constructor
  · intro fd pa cs
    exact ⟨rfl, rfl, rfl⟩
  · intro v
    unfold formatPracticeDate
    set digits := (v.toList.filter Char.isDigit).take 6 with hdig
    have hall : ∀ a ∈ digits, a.isDigit = true :=
      fun a ha => List.of_mem_filter (List.take_subset 6 _ ha)
    have hnd : ∀ a ∈ digits, a ≠ '-' :=
      fun a ha => not_dash_of_digit (hall a ha)
    by_cases h4 : digits.length ≤ 4
    · simp only [h4, if_true]
      unfold jsReplaceDash
      rw [show ((digits.asString).toList) = digits from rfl]
      rw [removeFirstDash_dashfree hnd]
      intro hmem
      exact hnd '-' hmem rfl
    · simp only [h4, if_false]
      unfold jsReplaceDash
      rw [show (((digits.take 4 ++ '-' :: digits.drop 4).asString).toList) =
            digits.take 4 ++ '-' :: digits.drop 4 from rfl]
      rw [removeFirstDash_append (digits.drop 4)
            (fun a ha => hnd a (List.take_subset 4 digits ha))]
      rw [List.take_append_drop]
      intro hmem
      exact hnd '-' hmem rfl

/-- Claim C10: the variant-2 payload carries `null` for the practice date
whenever the practice service is not selected, the employment-only
checkbox handler clears the stored practice date, and hence a submitted
record never carries a practice date without the practice service. -/
theorem practice_date_requires_practice_service :
    (∀ fd pa cs, fd.service_practice = true ∨
      (submitData fd pa cs).practice_planned_date = none) ∧
    (∀ fd, (selectEmploymentOnly fd).practice_planned_date = "" ∧
           (selectEmploymentOnly fd).service_practice = false ∧
           (selectEmploymentOnly fd).service_employment = true) ∧
    (∀ fd pa cs,
      (submitData (selectEmploymentOnly fd) pa cs).practice_planned_date = none) := by
  refine ⟨?_, ?_, ?_⟩
  · intro fd pa cs
    by_cases h : fd.service_practice
    · exact Or.inl h
    · right
      simp only [submitData]
      simp [h]
  · intro fd
    exact ⟨rfl, rfl, rfl⟩
  · intro fd pa cs
    simp [submitData, selectEmploymentOnly]
